import Mathlib

/-!
Verification of the MRZ (TD3 machine-readable travel document) encoder/decoder
in `src/MRTD.py`.

Python strings are modelled as `List Char` (the program's domain is the ASCII
ICAO character set `A`–`Z`, `0`–`9`, `<`).  Python operations used by the
source (`str.split`, `str.replace`, `str.strip`, `str.ljust`, slicing,
indexing) are given as faithful `List Char` translations.  Fallible Python
operations (indexing past the end, a missing required dictionary key) are
modelled with `Option`.
-/

namespace MRTD

/-- Python `str.isspace` on the ASCII whitespace characters stripped by
`str.strip()`. -/
def pyIsSpace (c : Char) : Bool :=
  c = ' ' || c = '\t' || c = '\n' || c = '\r' || c = '\x0b' || c = '\x0c'

/-- Python `s.strip()`: drop leading and trailing whitespace. -/
def pyStrip (s : List Char) : List Char :=
  ((s.dropWhile pyIsSpace).reverse.dropWhile pyIsSpace).reverse

/-- Python `s.replace(old, new)` for single-character `old` and `new`. -/
def replaceChar (old new : Char) (s : List Char) : List Char :=
  s.map (fun c => if c = old then new else c)

/-- Python `s.replace(old, "")` for a single-character `old`. -/
def removeChar (old : Char) (s : List Char) : List Char :=
  s.filter (fun c => c ≠ old)

/-- Python `s[a:b]` for `0 ≤ a ≤ b` (clamped to the string length). -/
def pySlice (a b : Nat) (s : List Char) : List Char :=
  (s.drop a).take (b - a)

/-- Python `s.ljust(n, fill)`: pad on the right up to width `n`. -/
def pyLjust (n : Nat) (fill : Char) (s : List Char) : List Char :=
  s ++ List.replicate (n - s.length) fill

/-- Python `s.split("<<", 1)`: split at the first occurrence of `"<<"`.
Returns the part before the separator and, when the separator occurs,
the part after it. -/
def splitOnLtLt : List Char → List Char × Option (List Char)
  | [] => ([], none)
  | [c] => ([c], none)
  | c :: d :: rest =>
    if c = '<' ∧ d = '<' then ([], some rest)
    else
      let p := splitOnLtLt (d :: rest)
      (c :: p.1, p.2)

/-- Python `s.split(sep)` for a single-character separator: keeps empty
pieces, `"".split(sep) == [""]`. -/
def pySplit (sep : Char) : List Char → List (List Char)
  | [] => [[]]
  | c :: rest =>
    match pySplit sep rest with
    | [] => [[c]]
    | h :: t => if c = sep then [] :: h :: t else (c :: h) :: t

/-- Python `sep.join(words)`. -/
def joinWith (sep : List Char) : List (List Char) → List Char
  | [] => []
  | [w] => w
  | w :: x :: ws => w ++ sep ++ joinWith sep (x :: ws)

/-- Python `" ".join(words)`. -/
def joinSpace (words : List (List Char)) : List Char :=
  joinWith [' '] words

/-- One step of the `luhn` package checksum: the doubled digit contributes
`sum(divmod(2*d, 10))`. -/
def luhnDouble (d : Nat) : Nat := 2 * d / 10 + 2 * d % 10

/-- Sum of the `luhn` package checksum over a digit list given least
significant first; the flag says whether the head position is doubled. -/
def luhnSum : List Nat → Bool → Nat
  | [], _ => 0
  | d :: ds, dbl => (if dbl then luhnDouble d else d) + luhnSum ds (!dbl)

/-- `luhn.generate(s)` from the `luhn` pip package: the check digit that makes
`s + digit` Luhn-valid.  Doubling starts at the last digit of `s`. -/
def luhnGenerate (ds : List Nat) : Nat :=
  let c := luhnSum ds.reverse true % 10
  if c = 0 then 0 else 10 - c

/-- `Char.ofNat (48 + n)`: the decimal digit character of `n < 10`;
Python's `str(n)` / f-string rendering of a one-digit integer. -/
def natToDigitChar (n : Nat) : Char := Char.ofNat (48 + n)

/-- Python `str(n)` for `n < 100` (the check-digit mapping only produces
values `0`–`35`). -/
def decimalDigits (n : Nat) : List Char :=
  if n < 10 then [natToDigitChar n] else [natToDigitChar (n / 10), natToDigitChar (n % 10)]

/-- The per-character contribution to `digits_only` in
`calculate_check_digit`: a digit stays, a letter becomes the decimal string of
its value 10–35 (`alphabet_dict`), `<` becomes `"0"`, anything else is
skipped. -/
def charMap (c : Char) : List Char :=
  if c.isDigit then [c]
  else if c.isAlpha then decimalDigits (c.toLower.toNat - 97 + 10)
  else if c = '<' then ['0']
  else []

/-- `calculate_check_digit` from `src/MRTD.py`: map the characters, join the
mapped decimal strings, and run `luhn.generate` over the resulting digit
string. -/
def calculate_check_digit (field : List Char) : Nat :=
  luhnGenerate (((field.map charMap).flatten).map (fun c => c.toNat - 48))

/-- The single character a check digit contributes to an encoded line
(`f"{d}"` of the integer returned by `calculate_check_digit`). -/
def checkDigitChar (field : List Char) : Char :=
  natToDigitChar (calculate_check_digit field)

/-- Python `int(s)` on an optionally signed decimal string with surrounding
whitespace; `none` models the `ValueError` on anything else. -/
def pyInt (s : List Char) : Option Int :=
  match pyStrip s with
  | '-' :: ds => if ds ≠ [] ∧ ds.all Char.isDigit then some (-(Int.ofNat (Nat.ofDigits 10 (ds.map (fun c => c.toNat - 48)).reverse))) else none
  | '+' :: ds => if ds ≠ [] ∧ ds.all Char.isDigit then some (Int.ofNat (Nat.ofDigits 10 (ds.map (fun c => c.toNat - 48)).reverse)) else none
  | ds => if ds ≠ [] ∧ ds.all Char.isDigit then some (Int.ofNat (Nat.ofDigits 10 (ds.map (fun c => c.toNat - 48)).reverse)) else none

/-- `report_digit_mismatch` from `src/MRTD.py`:
`calculate_check_digit(field_input) != int(expected_checksum)`; `none` models
the `ValueError` when the expected string does not parse as an integer. -/
def report_digit_mismatch (field_input expected_checksum : List Char) : Option Bool :=
  (pyInt expected_checksum).map (fun n => decide ((calculate_check_digit field_input : Int) ≠ n))

/-- The input mapping consumed by `encode_mrz_strings` (`data.get(key)`
returns `none` for a missing key). -/
structure MRZRecord where
  document_type : Option (List Char) := none
  country_code : Option (List Char) := none
  country_code_2 : Option (List Char) := none
  last_name : Option (List Char) := none
  first_name : Option (List Char) := none
  middle_names : Option (List Char) := none
  passport_number : Option (List Char) := none
  birth_date : Option (List Char) := none
  sex : Option (List Char) := none
  expiration_date : Option (List Char) := none
  personal_number : Option (List Char) := none

/-- Result dictionary of `decode_mrz_line1`. -/
structure Line1 where
  document_type : List Char
  country_code : List Char
  last_name : List Char
  first_name : List Char
  middle_names : Option (List Char)
  deriving DecidableEq

/-- Result dictionary of `decode_mrz_line2`. -/
structure Line2 where
  passport_number : List Char
  passport_number_check_digit : Char
  country_code_2 : List Char
  birth_date : List Char
  birth_date_check_digit : Char
  sex : List Char
  expiration_date : List Char
  expiration_date_check_digit : Char
  personal_number : List Char
  personal_number_check_digit : Char
  deriving DecidableEq

/-- `given_words` from `decode_mrz_line1`: split the given-names block on
`'<'` and drop the empty pieces (Python truthiness filter). -/
def given_words (raw_given_block : List Char) : List (List Char) :=
  (pySplit '<' raw_given_block).filter (fun w => w ≠ [])

/-- `decode_mrz_line1` from `src/MRTD.py`.  `none` models the `IndexError`
of `string1[0]` on the empty string; slicing never fails in Python. -/
def decode_mrz_line1 (string1 : List Char) : Option Line1 :=
  match string1 with
  | [] => none
  | c0 :: _ =>
    let name_field := string1.drop 5
    let parts := splitOnLtLt name_field
    let raw_given_block := parts.2.getD []
    let gw := given_words raw_given_block
    let middle_names := if gw.length > 1 then joinSpace (gw.tail.map pyStrip) else []
    some {
      document_type := [c0]
      country_code := pySlice 2 5 string1
      last_name := pyStrip (replaceChar '<' ' ' parts.1)
      first_name := match gw with | [] => [] | w :: _ => pyStrip w
      middle_names := if middle_names = [] then none else some middle_names }

/-- `decode_mrz_line2` from `src/MRTD.py`.  `none` models the `IndexError`
when the line is shorter than 44 characters (`string2[43]` is read). -/
def decode_mrz_line2 (string2 : List Char) : Option Line2 :=
  if string2.length < 44 then none
  else
    some {
      passport_number := pyStrip (removeChar '<' (pySlice 0 9 string2))
      passport_number_check_digit := string2.getD 9 ' '
      country_code_2 := pySlice 10 13 string2
      birth_date := pySlice 13 19 string2
      birth_date_check_digit := string2.getD 19 ' '
      sex := [string2.getD 20 ' ']
      expiration_date := pySlice 21 27 string2
      expiration_date_check_digit := string2.getD 27 ' '
      personal_number := pyStrip (removeChar '<' (pySlice 28 42 string2))
      personal_number_check_digit := string2.getD 43 ' ' }

/-- The merged dictionary returned by `decode_mrz_strings`
(line-1 and line-2 keys are disjoint, so the merge keeps all fields). -/
structure MRZDecoded where
  document_type : List Char
  country_code : List Char
  last_name : List Char
  first_name : List Char
  middle_names : Option (List Char)
  passport_number : List Char
  passport_number_check_digit : Char
  country_code_2 : List Char
  birth_date : List Char
  birth_date_check_digit : Char
  sex : List Char
  expiration_date : List Char
  expiration_date_check_digit : Char
  personal_number : List Char
  personal_number_check_digit : Char
  deriving DecidableEq

/-- `decode_mrz_strings` from `src/MRTD.py`: decode both lines and merge the
dictionaries; fails when either decode fails. -/
def decode_mrz_strings (string1 string2 : List Char) : Option MRZDecoded :=
  match decode_mrz_line1 string1, decode_mrz_line2 string2 with
  | some l1, some l2 =>
    some {
      document_type := l1.document_type
      country_code := l1.country_code
      last_name := l1.last_name
      first_name := l1.first_name
      middle_names := l1.middle_names
      passport_number := l2.passport_number
      passport_number_check_digit := l2.passport_number_check_digit
      country_code_2 := l2.country_code_2
      birth_date := l2.birth_date
      birth_date_check_digit := l2.birth_date_check_digit
      sex := l2.sex
      expiration_date := l2.expiration_date
      expiration_date_check_digit := l2.expiration_date_check_digit
      personal_number := l2.personal_number
      personal_number_check_digit := l2.personal_number_check_digit }
  | _, _ => none

/-- The `line1_core` string built by `encode_mrz_strings`:
`doc_type + "<" + issuing_state + last_name + "<<" + first_name + middle_block`,
with spaces in names replaced by fillers. -/
def enc_line1_core (data : MRZRecord) : List Char :=
  let doc_type := data.document_type.getD []
  let issuing_state := data.country_code.getD []
  let last_name := replaceChar ' ' '<' (data.last_name.getD [])
  let first_name := replaceChar ' ' '<' (data.first_name.getD [])
  let middle_names := data.middle_names.getD []
  let middle_block := if middle_names = [] then [] else '<' :: replaceChar ' ' '<' middle_names
  doc_type ++ '<' :: issuing_state ++ last_name ++ '<' :: '<' :: first_name ++ middle_block

/-- `line1` of `encode_mrz_strings`: the core padded with `<` to 44, or
truncated to its first 44 characters. -/
def enc_line1 (data : MRZRecord) : List Char :=
  let line1_core := enc_line1_core data
  if line1_core.length < 44 then line1_core ++ List.replicate (44 - line1_core.length) '<'
  else line1_core.take 44

/-- The nine-wide passport number field of line 2 (`ljust(9, "<")[:9]`). -/
def enc_passport (data : MRZRecord) : List Char :=
  (pyLjust 9 '<' (data.passport_number.getD [])).take 9

/-- The three-wide nationality field of line 2, filled from `country_code`. -/
def enc_country (data : MRZRecord) : List Char :=
  (pyLjust 3 '<' (data.country_code.getD [])).take 3

/-- The six-wide birth date field of line 2. -/
def enc_birth (data : MRZRecord) : List Char :=
  (pyLjust 6 '<' (data.birth_date.getD [])).take 6

/-- The six-wide expiration date field of line 2. -/
def enc_expiration (data : MRZRecord) : List Char :=
  (pyLjust 6 '<' (data.expiration_date.getD [])).take 6

/-- The fourteen-wide personal number field of line 2. -/
def enc_personal (data : MRZRecord) : List Char :=
  (pyLjust 14 '<' (data.personal_number.getD [])).take 14

/-- `line2` of `encode_mrz_strings`: fixed-width fields with their check
digits, filler sized so the personal-number check digit lands at position
43. -/
def enc_line2 (data : MRZRecord) (sexRaw : List Char) : List Char :=
  let passport_number := enc_passport data
  let country_code_2 := enc_country data
  let birth_date := enc_birth data
  let sex := sexRaw.take 1
  let expiration_date := enc_expiration data
  let personal_number := enc_personal data
  let prefix_len := passport_number.length + 1 + country_code_2.length + birth_date.length + 1 +
    sex.length + expiration_date.length + 1 + personal_number.length
  let filler_count := 44 - (prefix_len + 1)
  passport_number ++ checkDigitChar passport_number :: country_code_2 ++
    birth_date ++ checkDigitChar birth_date :: sex ++
    expiration_date ++ checkDigitChar expiration_date :: personal_number ++
    List.replicate filler_count '<' ++ [checkDigitChar personal_number]

/-- `encode_mrz_strings` from `src/MRTD.py`.  `none` models the `TypeError`
raised by `data.get("sex")[:1]` when the `sex` key is missing (every other
field goes through `... or ""`). -/
def encode_mrz_strings (data : MRZRecord) : Option (List Char × List Char) :=
  match data.sex with
  | none => none
  | some sexRaw => some (enc_line1 data, enc_line2 data sexRaw)

/-- The ICAO 9303 check digit (weighted 7-3-1 modulo 10), as specified by the
standard; used only to compare against `calculate_check_digit`. -/
def icaoCheckDigit (field : List Char) : Nat :=
  ((field.enum.map (fun p =>
      (if p.2.isDigit then p.2.toNat - 48
       else if p.2 = '<' then 0
       else if p.2.isAlpha then p.2.toUpper.toNat - 65 + 10
       else 0) * List.getD [7, 3, 1] (p.1 % 3) 0)).sum) % 10

/-- Characters of the ICAO data character set other than the filler:
uppercase letters and decimal digits. -/
def isUpperAlnum (c : Char) : Bool :=
  (65 ≤ c.toNat && c.toNat ≤ 90) || (48 ≤ c.toNat && c.toNat ≤ 57)

/-- Characters of the check-digit input domain: digits, letters and the
filler `<`. -/
def validCheckChar (c : Char) : Bool :=
  c.isDigit || c.isAlpha || c = '<'

/-- The ICAO 9303 specimen record (Erikssen sample), used as concrete input
for witnesses. -/
def erikssonRecord : MRZRecord where
  document_type := some "P".data
  country_code := some "UTO".data
  country_code_2 := some "UTO".data
  last_name := some "ERIKSSON".data
  first_name := some "ANNA".data
  middle_names := some "MARIA".data
  passport_number := some "L898902C3".data
  birth_date := some "740812".data
  sex := some "F".data
  expiration_date := some "120415".data
  personal_number := some "ZE184226B".data

/-- The specimen record with a nationality (`country_code_2`) differing from
the issuing state, exhibiting that the encoder drops the nationality. -/
def erikssonCc2 : MRZRecord :=
  { erikssonRecord with country_code_2 := some "ABC".data }

theorem upperAlnum_ne_lt {c : Char} (h : isUpperAlnum c = true) : c ≠ '<' := by
  intro e; rw [e] at h; exact absurd h (by decide)

theorem upperAlnum_ne_space {c : Char} (h : isUpperAlnum c = true) : c ≠ ' ' := by
  intro e; rw [e] at h; exact absurd h (by decide)

theorem upperAlnum_not_space {c : Char} (h : isUpperAlnum c = true) : pyIsSpace c = false := by
  cases hs : pyIsSpace c with
  | false => rfl
  | true =>
    exfalso
    simp only [pyIsSpace, Bool.or_eq_true, decide_eq_true_eq] at hs
    rcases hs with ((((rfl | rfl) | rfl) | rfl) | rfl) | rfl <;> exact absurd h (by decide)

theorem alnum_no_lt {s : List Char} (hs : s.all isUpperAlnum = true) : '<' ∉ s :=
  fun m => upperAlnum_ne_lt (List.all_eq_true.mp hs _ m) rfl

theorem alnum_no_space {s : List Char} (hs : s.all isUpperAlnum = true) : ' ' ∉ s :=
  fun m => upperAlnum_ne_space (List.all_eq_true.mp hs _ m) rfl

theorem replaceChar_of_not_mem {old : Char} (new : Char) {s : List Char} (h : old ∉ s) :
    replaceChar old new s = s := by
  have hcong : ∀ a ∈ s, (if a = old then new else a) = id a := fun a ha => by
    have hne : a ≠ old := fun e => by rw [e] at ha; exact h ha
    rw [if_neg hne]; rfl
  simpa using List.map_congr_left hcong

theorem removeChar_of_not_mem {old : Char} {s : List Char} (h : old ∉ s) :
    removeChar old s = s := by
  refine List.filter_eq_self.mpr fun a ha => ?_
  have hne : a ≠ old := fun e => by rw [e] at ha; exact h ha
  simpa using hne

theorem removeChar_replicate_self (old : Char) (k : Nat) :
    removeChar old (List.replicate k old) = [] := by
  simp [removeChar, List.filter_replicate]

theorem dropWhile_space_of_none {s : List Char} (h : ∀ c ∈ s, pyIsSpace c = false) :
    s.dropWhile pyIsSpace = s := by
  cases s with
  | nil => rfl
  | cons a t => rw [List.dropWhile_cons, if_neg]; simp [h a (List.mem_cons_self a t)]

theorem pyStrip_of_no_space {s : List Char} (h : ∀ c ∈ s, pyIsSpace c = false) :
    pyStrip s = s := by
  unfold pyStrip
  rw [dropWhile_space_of_none h,
    dropWhile_space_of_none (fun c hc => h c (List.mem_reverse.mp hc)), List.reverse_reverse]

theorem pyStrip_of_alnum {s : List Char} (hs : s.all isUpperAlnum = true) : pyStrip s = s :=
  pyStrip_of_no_space fun c hc => upperAlnum_not_space (List.all_eq_true.mp hs c hc)

theorem getD_eq_headD_drop (l : List Char) (n : Nat) (d : Char) :
    l.getD n d = (l.drop n).headD d := by
  induction n generalizing l with
  | zero => cases l <;> rfl
  | succ n ih =>
    cases l with
    | nil => rfl
    | cons c t => rw [List.getD_cons_succ, List.drop_succ_cons]; exact ih t

theorem splitOnLtLt_of_no_lt {l : List Char} (r : List Char) (h : '<' ∉ l) :
    splitOnLtLt (l ++ '<' :: '<' :: r) = (l, some r) := by
  induction l with
  | nil => simp [splitOnLtLt]
  | cons c t ih =>
    have hc : c ≠ '<' := fun e => h (e ▸ List.mem_cons_self c t)
    have ht : '<' ∉ t := fun m => h (List.mem_cons_of_mem c m)
    cases t with
    | nil => simp [splitOnLtLt, hc]
    | cons c' t' =>
      have hrec := ih ht
      simp only [List.cons_append] at hrec ⊢
      rw [splitOnLtLt, if_neg (fun hand => hc hand.1), hrec]

theorem pySplit_replicate (k : Nat) :
    pySplit '<' (List.replicate k '<') = List.replicate (k + 1) ([] : List Char) := by
  induction k with
  | zero => rfl
  | succ k ih =>
    rw [List.replicate_succ]
    unfold pySplit
    rw [ih, List.replicate_succ]
    simp [List.replicate_succ]

theorem pySplit_append_of_no_sep (sep : Char) {w : List Char} (r : List Char) (hw : sep ∉ w)
    (hd : List Char) (tl : List (List Char)) (h : pySplit sep r = hd :: tl) :
    pySplit sep (w ++ r) = (w ++ hd) :: tl := by
  induction w with
  | nil => simpa using h
  | cons c t ih =>
    have hc : c ≠ sep := fun e => hw (e ▸ List.mem_cons_self c t)
    have ht : sep ∉ t := fun m => hw (List.mem_cons_of_mem c m)
    rw [List.cons_append]
    unfold pySplit
    rw [ih ht]
    simp [hc]

theorem pySplit_join_words {ws : List (List Char)} (hws : ws ≠ [])
    (hw : ∀ w ∈ ws, '<' ∉ w) (k : Nat) :
    pySplit '<' (joinWith ['<'] ws ++ List.replicate k '<') =
      ws ++ List.replicate k ([] : List Char) := by
  induction ws with
  | nil => cases hws rfl
  | cons w t ih =>
    cases t with
    | nil =>
      simp only [joinWith]
      rw [pySplit_append_of_no_sep '<' _ (hw w (List.mem_cons_self w []))
        [] (List.replicate k []) (by rw [pySplit_replicate, List.replicate_succ])]
      simp
    | cons x t' =>
      have hrec := ih (by simp) (fun u hu => hw u (List.mem_cons_of_mem _ hu))
      have hX : pySplit '<' ('<' :: (joinWith ['<'] (x :: t') ++ List.replicate k '<')) =
          [] :: ((x :: t') ++ List.replicate k ([] : List Char)) := by
        unfold pySplit
        rw [hrec]
        simp
      have hassoc : joinWith ['<'] (w :: x :: t') ++ List.replicate k '<' =
          w ++ ('<' :: (joinWith ['<'] (x :: t') ++ List.replicate k '<')) := by
        simp [joinWith]
      rw [hassoc, pySplit_append_of_no_sep '<' _ (hw w (List.mem_cons_self w _)) _ _ hX]
      simp

theorem replace_space_joinSpace {ws : List (List Char)} (h : ∀ w ∈ ws, ' ' ∉ w) :
    replaceChar ' ' '<' (joinSpace ws) = joinWith ['<'] ws := by
  induction ws with
  | nil => rfl
  | cons w t ih =>
    cases t with
    | nil =>
      simp only [joinSpace, joinWith]
      exact replaceChar_of_not_mem '<' (h w (List.mem_cons_self w []))
    | cons x t' =>
      have hw := replaceChar_of_not_mem '<' (h w (List.mem_cons_self w _))
      have ihr := ih (fun u hu => h u (List.mem_cons_of_mem _ hu))
      simp only [joinSpace, joinWith] at ihr ⊢
      simp only [replaceChar, List.map_append, List.map_cons] at hw ihr ⊢
      rw [hw, ihr]
      simp

theorem joinSpace_cons_ne_nil {w : List Char} (t : List (List Char)) (hw : w ≠ []) :
    joinSpace (w :: t) ≠ [] := by
  cases t <;> simp [joinSpace, joinWith, hw]

theorem pyLjust_take_of_le {n : Nat} (fill : Char) {s : List Char} (h : s.length ≤ n) :
    (pyLjust n fill s).take n = s ++ List.replicate (n - s.length) fill := by
  unfold pyLjust
  apply List.take_of_length_le
  simp only [List.length_append, List.length_replicate]
  omega

theorem pyLjust_take_of_eq {n : Nat} (fill : Char) {s : List Char} (h : s.length = n) :
    (pyLjust n fill s).take n = s := by
  rw [pyLjust_take_of_le fill (Nat.le_of_eq h), h]
  simp

theorem length_pyLjust_take (n : Nat) (fill : Char) (s : List Char) :
    ((pyLjust n fill s).take n).length = n := by
  simp only [pyLjust, List.length_take, List.length_append, List.length_replicate]
  omega

/-- Decoding a line-2 string given in its encoded shape: nine fixed-width
pieces followed by one filler and the final check digit. -/
theorem decode_mrz_line2_shape (pn cc bd sx ed per : List Char) (c1 c2 c3 c4 : Char)
    (h9 : pn.length = 9) (h3 : cc.length = 3) (hbd : bd.length = 6)
    (hsx : sx.length = 1) (hed : ed.length = 6) (hper : per.length = 14) :
    decode_mrz_line2
        (pn ++ (c1 :: (cc ++ (bd ++ (c2 :: (sx ++ (ed ++ (c3 :: (per ++ ('<' :: [c4])))))))))) =
      some {
        passport_number := pyStrip (removeChar '<' pn)
        passport_number_check_digit := c1
        country_code_2 := cc
        birth_date := bd
        birth_date_check_digit := c2
        sex := sx
        expiration_date := ed
        expiration_date_check_digit := c3
        personal_number := pyStrip (removeChar '<' per)
        personal_number_check_digit := c4 } := by
  obtain ⟨s0, rfl⟩ := List.length_eq_one.mp hsx
  set S := pn ++ (c1 :: (cc ++ (bd ++ (c2 :: ([s0] ++ (ed ++ (c3 :: (per ++ ('<' :: [c4]))))))))) with hS
  have hlen : S.length = 44 := by
    rw [hS]
    simp only [List.length_append, List.length_cons, List.length_nil]
    omega
  have d9 : S.drop 9 =
      c1 :: (cc ++ (bd ++ (c2 :: ([s0] ++ (ed ++ (c3 :: (per ++ ('<' :: [c4])))))))) := by
    rw [hS]; exact List.drop_left' h9
  have d10 : S.drop 10 = cc ++ (bd ++ (c2 :: ([s0] ++ (ed ++ (c3 :: (per ++ ('<' :: [c4]))))))) := by
    rw [show (10 : Nat) = 9 + 1 from rfl, ← List.drop_drop, d9]
    rfl
  have d13 : S.drop 13 = bd ++ (c2 :: ([s0] ++ (ed ++ (c3 :: (per ++ ('<' :: [c4])))))) := by
    rw [show (13 : Nat) = 10 + 3 from rfl, ← List.drop_drop, d10, List.drop_left' h3]
  have d19 : S.drop 19 = c2 :: ([s0] ++ (ed ++ (c3 :: (per ++ ('<' :: [c4]))))) := by
    rw [show (19 : Nat) = 13 + 6 from rfl, ← List.drop_drop, d13]
    exact List.drop_left' hbd
  have d20 : S.drop 20 = s0 :: (ed ++ (c3 :: (per ++ ('<' :: [c4])))) := by
    rw [show (20 : Nat) = 19 + 1 from rfl, ← List.drop_drop, d19]
    rfl
  have d21 : S.drop 21 = ed ++ (c3 :: (per ++ ('<' :: [c4]))) := by
    rw [show (21 : Nat) = 20 + 1 from rfl, ← List.drop_drop, d20]
    rfl
  have d27 : S.drop 27 = c3 :: (per ++ ('<' :: [c4])) := by
    rw [show (27 : Nat) = 21 + 6 from rfl, ← List.drop_drop, d21]
    exact List.drop_left' hed
  have d28 : S.drop 28 = per ++ ('<' :: [c4]) := by
    rw [show (28 : Nat) = 27 + 1 from rfl, ← List.drop_drop, d27]
    rfl
  have d43 : S.drop 43 = [c4] := by
    rw [show (43 : Nat) = 28 + 15 from rfl, ← List.drop_drop, d28,
      show (15 : Nat) = 14 + 1 from rfl, ← List.drop_drop, List.drop_left' hper]
    rfl
  have t09 : pySlice 0 9 S = pn := by
    unfold pySlice
    rw [List.drop_zero, Nat.sub_zero, hS]
    exact List.take_left' h9
  have t1013 : pySlice 10 13 S = cc := by
    unfold pySlice
    rw [show (13 - 10 : Nat) = 3 from rfl, d10]
    exact List.take_left' h3
  have t1319 : pySlice 13 19 S = bd := by
    unfold pySlice
    rw [show (19 - 13 : Nat) = 6 from rfl, d13]
    exact List.take_left' hbd
  have t2127 : pySlice 21 27 S = ed := by
    unfold pySlice
    rw [show (27 - 21 : Nat) = 6 from rfl, d21]
    exact List.take_left' hed
  have t2842 : pySlice 28 42 S = per := by
    unfold pySlice
    rw [show (42 - 28 : Nat) = 14 from rfl, d28]
    exact List.take_left' hper
  have g9 : S.getD 9 ' ' = c1 := by rw [getD_eq_headD_drop, d9]; rfl
  have g19 : S.getD 19 ' ' = c2 := by rw [getD_eq_headD_drop, d19]; rfl
  have g20 : S.getD 20 ' ' = s0 := by rw [getD_eq_headD_drop, d20]; rfl
  have g27 : S.getD 27 ' ' = c3 := by rw [getD_eq_headD_drop, d27]; rfl
  have g43 : S.getD 43 ' ' = c4 := by rw [getD_eq_headD_drop, d43]; rfl
  unfold decode_mrz_line2
  rw [hlen, if_neg (by omega : ¬(44 : Nat) < 44), t09, t1013, t1319, t2127, t2842,
    g9, g19, g20, g27, g43]

/-- Decoding a line-1 string given in its encoded shape: the first `<<` of
the name field sits right after the surname. -/
theorem decode_mrz_line1_shape (d0 : Char) (cc ln rest2 : List Char) (h3 : cc.length = 3)
    (hln : '<' ∉ ln) :
    decode_mrz_line1 (d0 :: ('<' :: (cc ++ (ln ++ ('<' :: ('<' :: rest2)))))) =
      some {
        document_type := [d0]
        country_code := cc
        last_name := pyStrip (replaceChar '<' ' ' ln)
        first_name := match given_words rest2 with | [] => [] | w :: _ => pyStrip w
        middle_names :=
          if (if (given_words rest2).length > 1
              then joinSpace (((given_words rest2).tail).map pyStrip) else []) = []
          then none
          else some (if (given_words rest2).length > 1
              then joinSpace (((given_words rest2).tail).map pyStrip) else []) } := by
  have d5 : List.drop 5 (d0 :: ('<' :: (cc ++ (ln ++ ('<' :: ('<' :: rest2)))))) =
      ln ++ '<' :: '<' :: rest2 := by
    rw [show List.drop 5 (d0 :: ('<' :: (cc ++ (ln ++ ('<' :: ('<' :: rest2)))))) =
      List.drop 3 (cc ++ (ln ++ ('<' :: ('<' :: rest2)))) from rfl]
    exact List.drop_left' h3
  have t25 : pySlice 2 5 (d0 :: ('<' :: (cc ++ (ln ++ ('<' :: ('<' :: rest2)))))) = cc := by
    unfold pySlice
    rw [show List.drop 2 (d0 :: ('<' :: (cc ++ (ln ++ ('<' :: ('<' :: rest2)))))) =
      cc ++ (ln ++ ('<' :: ('<' :: rest2))) from rfl, show (5 - 2 : Nat) = 3 from rfl]
    exact List.take_left' h3
  have hsplit :
      splitOnLtLt (List.drop 5 (d0 :: ('<' :: (cc ++ (ln ++ ('<' :: ('<' :: rest2))))))) =
      (ln, some rest2) := by
    rw [d5]
    exact splitOnLtLt_of_no_lt rest2 hln
  unfold decode_mrz_line1
  simp only [hsplit, t25, Option.getD_some]

theorem encode_some {r : MRZRecord} {sx : List Char} (h : r.sex = some sx) :
    encode_mrz_strings r = some (enc_line1 r, enc_line2 r sx) := by
  unfold encode_mrz_strings
  rw [h]

theorem enc_line1_length (r : MRZRecord) : (enc_line1 r).length = 44 := by
  by_cases hc : (enc_line1_core r).length < 44
  · simp only [enc_line1, if_pos hc, List.length_append, List.length_replicate]
    omega
  · simp only [enc_line1, if_neg hc, List.length_take]
    omega

theorem enc_line2_length (r : MRZRecord) (sx : List Char) : (enc_line2 r sx).length = 44 := by
  unfold enc_line2
  simp only [enc_passport, enc_country, enc_birth, enc_expiration, enc_personal,
    List.length_append, List.length_cons, List.length_replicate, List.length_take,
    List.length_nil, length_pyLjust_take]
  omega

theorem enc_line1_eq_pad (r : MRZRecord) (h : (enc_line1_core r).length ≤ 44) :
    enc_line1 r = enc_line1_core r ++ List.replicate (44 - (enc_line1_core r).length) '<' := by
  unfold enc_line1
  by_cases hc : (enc_line1_core r).length < 44
  · rw [if_pos hc]
  · rw [if_neg hc]
    have h44 : (enc_line1_core r).length = 44 := Nat.le_antisymm h (Nat.le_of_not_lt hc)
    rw [List.take_of_length_le (Nat.le_of_eq h44), h44, Nat.sub_self, List.replicate_zero,
      List.append_nil]

theorem replaceChar_length (old new : Char) (s : List Char) :
    (replaceChar old new s).length = s.length := by
  simp [replaceChar]

theorem strip_remove_padded (s : List Char) (k : Nat) (hA : s.all isUpperAlnum = true) :
    pyStrip (removeChar '<' (s ++ List.replicate k '<')) = s := by
  have h1 : removeChar '<' (s ++ List.replicate k '<') =
      removeChar '<' s ++ removeChar '<' (List.replicate k '<') := List.filter_append _ _
  rw [h1, removeChar_of_not_mem (alnum_no_lt hA), removeChar_replicate_self, List.append_nil,
    pyStrip_of_alnum hA]

theorem removeChar_eq_nil_of_all {l : List Char} (h : ∀ c ∈ l, c = '<') :
    removeChar '<' l = [] := by
  unfold removeChar
  exact List.filter_eq_nil_iff.mpr fun a ha => by simp [h a ha]

/-- C1: the check-digit computation maps digits to themselves, `<` to `"0"`,
letters to the decimal string of their alphabetic value 10–35, joins the
mapped values and applies a Luhn mod-10 checksum (alternating doubling from
the rightmost digit, the `luhn` package's `generate`); on the ICAO sample
field "520727" it returns 9, which differs from the ICAO-standard check
digit 3 (weighted 7-3-1). -/
theorem C1_luhn_check_digit_differs_from_icao :
    (∀ d : Fin 10, charMap (Char.ofNat (48 + d.val)) = [Char.ofNat (48 + d.val)]) ∧
    charMap '<' = ['0'] ∧
    (∀ i : Fin 26, charMap (Char.ofNat (65 + i.val)) = decimalDigits (10 + i.val) ∧
      charMap (Char.ofNat (97 + i.val)) = decimalDigits (10 + i.val)) ∧
    (∀ field : List Char,
      calculate_check_digit field =
        luhnGenerate (((field.map charMap).flatten).map (fun c => c.toNat - 48))) ∧
    calculate_check_digit "520727".data = 9 ∧
    icaoCheckDigit "520727".data = 3 ∧
    calculate_check_digit "520727".data ≠ icaoCheckDigit "520727".data := by
  refine ⟨by decide, by decide, by decide, fun _ => rfl, by decide, by decide, by decide⟩

/-- C4: decoding the ICAO specimen pair of MRZ lines yields the specimen
field values. -/
theorem C4_specimen_decode :
    ∃ d, decode_mrz_strings "P<UTOERIKSSON<<ANNA<MARIA<<<<<<<<<<<<<<<<<<<".data
        "L898902C36UTO7408122F1204159ZE184226B<<<<<<1".data = some d ∧
      d.document_type = "P".data ∧
      d.country_code = "UTO".data ∧
      d.last_name = "ERIKSSON".data ∧
      d.first_name = "ANNA".data ∧
      d.middle_names = some "MARIA".data ∧
      d.passport_number = "L898902C3".data ∧
      d.birth_date = "740812".data ∧
      d.sex = "F".data ∧
      d.expiration_date = "120415".data ∧
      d.personal_number = "ZE184226B".data :=
  ⟨_, rfl, rfl, rfl, rfl, rfl, rfl, rfl, rfl, rfl, rfl, rfl⟩

/-- C10: the encoder never reads the `country_code_2` entry of its input
mapping (line-2 positions 10–12 are filled from `country_code`), so two
inputs differing only there encode identically. -/
theorem C10_encoder_ignores_country_code_2 (r : MRZRecord) (v : Option (List Char)) :
    encode_mrz_strings { r with country_code_2 := v } = encode_mrz_strings r :=
  rfl

/-- C3: whenever the encoder accepts its input (the `sex` key is present),
both returned lines are exactly 44 characters long, whatever the lengths of
the input fields. -/
theorem C3_fixed_width (r : MRZRecord) (sx : List Char) (h : r.sex = some sx) :
    ∃ l1 l2, encode_mrz_strings r = some (l1, l2) ∧ l1.length = 44 ∧ l2.length = 44 :=
  ⟨_, _, encode_some h, enc_line1_length r, enc_line2_length r sx⟩

/-- Witness for C3 at the ICAO specimen record. -/
theorem C3_fixed_width_witness :
    ∃ l1 l2, encode_mrz_strings erikssonRecord = some (l1, l2) ∧
      l1.length = 44 ∧ l2.length = 44 :=
  C3_fixed_width erikssonRecord "F".data rfl

/-- C5: for any field of the checksum input domain and any expected string
that parses as an integer, `report_digit_mismatch` returns true exactly when
the computed check digit differs from the parsed expected value, and false
when they agree.  The embedding is a pure function, so the comparison
mutates nothing. -/
theorem C5_mismatch_detection (field expected : List Char) (n : Int)
    (_hf : field.all validCheckChar = true) (he : pyInt expected = some n) :
    (report_digit_mismatch field expected = some true ↔
      (calculate_check_digit field : Int) ≠ n) ∧
    (report_digit_mismatch field expected = some false ↔
      (calculate_check_digit field : Int) = n) := by
  unfold report_digit_mismatch
  rw [he, Option.map_some']
  constructor
  · simp
  · simp

/-- Witness for C5 on the ICAO sample field "520727" against expected
digit 3 (the Luhn-based computation yields 9, so a mismatch is reported). -/
theorem C5_mismatch_detection_witness :
    (report_digit_mismatch "520727".data "3".data = some true ↔
      (calculate_check_digit "520727".data : Int) ≠ 3) ∧
    (report_digit_mismatch "520727".data "3".data = some false ↔
      (calculate_check_digit "520727".data : Int) = 3) :=
  C5_mismatch_detection "520727".data "3".data 3 (by decide) (by decide)

/-- C6 counterexample: the five-character input "P<UTO" is shorter than 44
characters, yet line-1 decoding succeeds on it, refuting the claim that
every input shorter than 44 characters fails. -/
theorem C6_short_input_counterexample :
    ("P<UTO".data.length < 44) ∧ (decode_mrz_line1 "P<UTO".data).isSome = true :=
  ⟨by decide, by decide⟩

/-- C6 amended: line-1 decoding never fails on inputs of at least 44
characters; among all inputs, exactly the empty string fails (the
IndexOutOfBounds-equivalent condition comes only from reading position 0). -/
theorem C6_line1_failure_amended (s : List Char) :
    (44 ≤ s.length → (decode_mrz_line1 s).isSome = true) ∧
    (decode_mrz_line1 s = none ↔ s = []) := by
  cases s with
  | nil =>
    refine ⟨fun h => absurd h (by simp), ?_⟩
    simp [decode_mrz_line1]
  | cons c t =>
    refine ⟨fun _ => ?_, ?_⟩ <;> simp [decode_mrz_line1]

/-- Witness for C6 at a 44-character input and at the empty input. -/
theorem C6_line1_failure_witness :
    (decode_mrz_line1 (List.replicate 44 'A')).isSome = true ∧
    decode_mrz_line1 [] = none :=
  ⟨(C6_line1_failure_amended (List.replicate 44 'A')).1 (by decide),
    (C6_line1_failure_amended []).2.mpr rfl⟩

/-- C7: encoding fails exactly when the `sex` entry is missing (the
MissingField condition), and every other, optional field is treated as the
empty string when missing: replacing a missing optional field by the empty
string does not change the encoder's output. -/
theorem C7_sex_required_optional_default (r : MRZRecord) :
    (encode_mrz_strings r = none ↔ r.sex = none) ∧
    encode_mrz_strings { r with document_type := none } =
      encode_mrz_strings { r with document_type := some [] } ∧
    encode_mrz_strings { r with country_code := none } =
      encode_mrz_strings { r with country_code := some [] } ∧
    encode_mrz_strings { r with country_code_2 := none } =
      encode_mrz_strings { r with country_code_2 := some [] } ∧
    encode_mrz_strings { r with last_name := none } =
      encode_mrz_strings { r with last_name := some [] } ∧
    encode_mrz_strings { r with first_name := none } =
      encode_mrz_strings { r with first_name := some [] } ∧
    encode_mrz_strings { r with middle_names := none } =
      encode_mrz_strings { r with middle_names := some [] } ∧
    encode_mrz_strings { r with passport_number := none } =
      encode_mrz_strings { r with passport_number := some [] } ∧
    encode_mrz_strings { r with birth_date := none } =
      encode_mrz_strings { r with birth_date := some [] } ∧
    encode_mrz_strings { r with expiration_date := none } =
      encode_mrz_strings { r with expiration_date := some [] } ∧
    encode_mrz_strings { r with personal_number := none } =
      encode_mrz_strings { r with personal_number := some [] } := by
  refine ⟨?_, rfl, rfl, rfl, rfl, rfl, rfl, rfl, rfl, rfl, rfl⟩
  cases h : r.sex with
  | none => simp [encode_mrz_strings, h]
  | some s => simp [encode_mrz_strings, h]

/-- Witness for C7: a record with every key but `sex` present still fails to
encode. -/
theorem C7_sex_required_witness :
    encode_mrz_strings { erikssonRecord with sex := none } = none :=
  (C7_sex_required_optional_default { erikssonRecord with sex := none }).1.mpr rfl

/-- C9: when the passport-number field (positions 0–9) or the
personal-number field (positions 28–42) of a 44-character line 2 consists
entirely of fillers, the decoded field is the empty string. -/
theorem C9_filler_fields_decode_empty (s : List Char) (h : s.length = 44) :
    ∃ r, decode_mrz_line2 s = some r ∧
      ((pySlice 0 9 s).all (fun c => c == '<') = true → r.passport_number = []) ∧
      ((pySlice 28 42 s).all (fun c => c == '<') = true → r.personal_number = []) := by
  have hd : decode_mrz_line2 s = some {
      passport_number := pyStrip (removeChar '<' (pySlice 0 9 s))
      passport_number_check_digit := s.getD 9 ' '
      country_code_2 := pySlice 10 13 s
      birth_date := pySlice 13 19 s
      birth_date_check_digit := s.getD 19 ' '
      sex := [s.getD 20 ' ']
      expiration_date := pySlice 21 27 s
      expiration_date_check_digit := s.getD 27 ' '
      personal_number := pyStrip (removeChar '<' (pySlice 28 42 s))
      personal_number_check_digit := s.getD 43 ' ' } := by
    unfold decode_mrz_line2
    rw [h, if_neg (by omega : ¬(44 : Nat) < 44)]
  refine ⟨_, hd, fun hall => ?_, fun hall => ?_⟩
  · show pyStrip (removeChar '<' (pySlice 0 9 s)) = []
    rw [removeChar_eq_nil_of_all
      (fun c hc => by simpa using List.all_eq_true.mp hall c hc)]
    rfl
  · show pyStrip (removeChar '<' (pySlice 28 42 s)) = []
    rw [removeChar_eq_nil_of_all
      (fun c hc => by simpa using List.all_eq_true.mp hall c hc)]
    rfl

/-- Witness for C9 at the all-filler line. -/
theorem C9_filler_fields_witness :
    ∃ r, decode_mrz_line2 (List.replicate 44 '<') = some r ∧
      ((pySlice 0 9 (List.replicate 44 '<')).all (fun c => c == '<') = true →
        r.passport_number = []) ∧
      ((pySlice 28 42 (List.replicate 44 '<')).all (fun c => c == '<') = true →
        r.personal_number = []) :=
  C9_filler_fields_decode_empty (List.replicate 44 '<') (by decide)

/-- C2 counterexample: the specimen record with `country_code_2 = "ABC"`
satisfies the claim's hypotheses (all fields fit in 44 characters and contain
no internal `<`), yet decoding its encoding returns `country_code_2 = "UTO"`
(the issuing state), not the record's `"ABC"`: the round trip fails on the
listed field `country_code_2`. -/
theorem C2_roundtrip_counterexample :
    encode_mrz_strings erikssonCc2 =
      some ("P<UTOERIKSSON<<ANNA<MARIA<<<<<<<<<<<<<<<<<<<".data,
            "L898902C31UTO7408123F1204155ZE184226B<<<<<<0".data) ∧
    (decode_mrz_strings "P<UTOERIKSSON<<ANNA<MARIA<<<<<<<<<<<<<<<<<<<".data
        "L898902C31UTO7408123F1204155ZE184226B<<<<<<0".data).map
      MRZDecoded.country_code_2 = some "UTO".data ∧
    erikssonCc2.country_code_2 = some "ABC".data ∧
    ([erikssonCc2.document_type, erikssonCc2.country_code, erikssonCc2.country_code_2,
      erikssonCc2.last_name, erikssonCc2.first_name, erikssonCc2.middle_names,
      erikssonCc2.passport_number, erikssonCc2.birth_date, erikssonCc2.sex,
      erikssonCc2.expiration_date, erikssonCc2.personal_number].all
        (fun f => (f.getD []).all (fun c => !(c == '<')))) = true ∧
    (enc_line1_core erikssonCc2).length ≤ 44 ∧
    "UTO".data ≠ "ABC".data :=
  ⟨by decide, by decide, rfl, by decide, by decide, by decide⟩

theorem given_words_ne_nil (b : List Char) : ∀ t ∈ given_words b, t ≠ [] :=
  fun t ht => by simpa using (List.mem_filter.mp ht).2

theorem tail_eq_nil_iff_length_le_one (l : List (List Char)) :
    l.tail = [] ↔ l.length ≤ 1 := by
  cases l with
  | nil => simp
  | cons a t => cases t <;> simp

/-- C8 counterexample: decoding "P<UTOX<<A< " (given-names block "A< ")
produces a secondary token consisting of one space, yet `middle_names` is
null, refuting "null exactly when no secondary token exists". -/
theorem C8_whitespace_token_counterexample :
    decode_mrz_line1 "P<UTOX<<A< ".data =
      some { document_type := ['P'], country_code := "UTO".data, last_name := ['X'],
             first_name := ['A'], middle_names := none } ∧
    (given_words ((splitOnLtLt ("P<UTOX<<A< ".data.drop 5)).2.getD [])).tail = [[' ']] :=
  ⟨by decide, by decide⟩

/-- C8 amended: the given-names block is split on `<` with empty tokens
dropped (so no token is empty), the first token (stripped) becomes
`first_name` (empty when there are no tokens), and `middle_names` is the
space-join of the stripped secondary tokens; it is null exactly when there
is no secondary token or the joined stripped secondary tokens form the
empty string. -/
theorem C8_given_names_split_amended (s : List Char) (hs : s ≠ []) :
    ∃ r, decode_mrz_line1 s = some r ∧
      (∀ t ∈ given_words ((splitOnLtLt (s.drop 5)).2.getD []), t ≠ []) ∧
      r.first_name = (match given_words ((splitOnLtLt (s.drop 5)).2.getD []) with
        | [] => [] | w :: _ => pyStrip w) ∧
      (r.middle_names = none ↔
        ((given_words ((splitOnLtLt (s.drop 5)).2.getD [])).tail = [] ∨
         joinSpace (((given_words ((splitOnLtLt (s.drop 5)).2.getD [])).tail).map pyStrip) =
           [])) ∧
      (∀ m, r.middle_names = some m →
        m = joinSpace (((given_words ((splitOnLtLt (s.drop 5)).2.getD [])).tail).map pyStrip)) := by
  cases s with
  | nil => exact absurd rfl hs
  | cons c t =>
    refine ⟨_, rfl, given_words_ne_nil _, rfl, ?_, ?_⟩
    · dsimp only
      by_cases hlen : (given_words ((splitOnLtLt (List.drop 5 (c :: t))).2.getD [])).length > 1
      · rw [if_pos hlen]
        have htl :
            ¬((given_words ((splitOnLtLt (List.drop 5 (c :: t))).2.getD [])).tail = []) := by
          rw [tail_eq_nil_iff_length_le_one]
          omega
        by_cases hj : joinSpace
            (List.map pyStrip (given_words ((splitOnLtLt (List.drop 5 (c :: t))).2.getD [])).tail)
            = []
        · rw [if_pos hj]
          exact ⟨fun _ => Or.inr hj, fun _ => rfl⟩
        · rw [if_neg hj]
          exact ⟨fun h => absurd h (by simp),
            fun h => h.elim (fun h1 => absurd h1 htl) (fun h2 => absurd h2 hj)⟩
      · rw [if_neg hlen]
        have htl : (given_words ((splitOnLtLt (List.drop 5 (c :: t))).2.getD [])).tail = [] := by
          rw [tail_eq_nil_iff_length_le_one]
          omega
        rw [if_pos rfl]
        exact iff_of_true rfl (Or.inl htl)
    · dsimp only
      intro m
      by_cases hlen : (given_words ((splitOnLtLt (List.drop 5 (c :: t))).2.getD [])).length > 1
      · rw [if_pos hlen]
        by_cases hj : joinSpace
            (List.map pyStrip (given_words ((splitOnLtLt (List.drop 5 (c :: t))).2.getD [])).tail)
            = []
        · rw [if_pos hj]
          intro hcontra
          exact absurd hcontra (by simp)
        · rw [if_neg hj]
          intro hsome
          exact (Option.some_inj.mp hsome).symm
      · rw [if_neg hlen, if_pos rfl]
        intro hcontra
        exact absurd hcontra (by simp)

/-- Witness for C8 at the ICAO specimen line 1. -/
theorem C8_given_names_split_witness :
    ∃ r, decode_mrz_line1 "P<UTOERIKSSON<<ANNA<MARIA<<<<<<<<<<<<<<<<<<<".data = some r ∧
      (∀ t ∈ given_words
        ((splitOnLtLt ("P<UTOERIKSSON<<ANNA<MARIA<<<<<<<<<<<<<<<<<<<".data.drop 5)).2.getD []),
        t ≠ []) ∧
      r.first_name = (match given_words
          ((splitOnLtLt ("P<UTOERIKSSON<<ANNA<MARIA<<<<<<<<<<<<<<<<<<<".data.drop 5)).2.getD [])
        with | [] => [] | w :: _ => pyStrip w) ∧
      (r.middle_names = none ↔
        ((given_words
          ((splitOnLtLt ("P<UTOERIKSSON<<ANNA<MARIA<<<<<<<<<<<<<<<<<<<".data.drop 5)).2.getD
            [])).tail = [] ∨
         joinSpace (((given_words
          ((splitOnLtLt ("P<UTOERIKSSON<<ANNA<MARIA<<<<<<<<<<<<<<<<<<<".data.drop 5)).2.getD
            [])).tail).map pyStrip) = [])) ∧
      (∀ m, r.middle_names = some m →
        m = joinSpace (((given_words
          ((splitOnLtLt ("P<UTOERIKSSON<<ANNA<MARIA<<<<<<<<<<<<<<<<<<<".data.drop 5)).2.getD
            [])).tail).map pyStrip)) :=
  C8_given_names_split_amended "P<UTOERIKSSON<<ANNA<MARIA<<<<<<<<<<<<<<<<<<<".data (by decide)

/-- C2 amended: for a record whose fields have the fixed widths of the TD3
layout (document type and sex one character, country code three, dates six),
whose free-width fields (names, passport and personal numbers) are uppercase
alphanumeric with passport within 9 and personal number within 14
characters, whose middle names are either absent or a nonempty list of
nonempty alphanumeric words (with a nonempty first name), and whose composed
line-1 core fits within 44 characters, decoding the encoded pair restores
every listed field except `country_code_2`, which decodes to `country_code`
(the encoder fills the nationality slot from the issuing state). -/
theorem C2_roundtrip_amended (r : MRZRecord)
    (dt cc ln fn pn bd sx ed per : List Char)
    (hdt : r.document_type = some dt) (hdt1 : dt.length = 1)
    (hcc : r.country_code = some cc) (hcc3 : cc.length = 3)
    (hln : r.last_name = some ln) (hlnA : ln.all isUpperAlnum = true)
    (hfn : r.first_name = some fn) (hfnA : fn.all isUpperAlnum = true)
    (hpn : r.passport_number = some pn) (hpnA : pn.all isUpperAlnum = true)
    (hpn9 : pn.length ≤ 9)
    (hbd : r.birth_date = some bd) (hbd6 : bd.length = 6)
    (hsx : r.sex = some sx) (hsx1 : sx.length = 1)
    (hed : r.expiration_date = some ed) (hed6 : ed.length = 6)
    (hper : r.personal_number = some per) (hperA : per.all isUpperAlnum = true)
    (hper14 : per.length ≤ 14)
    (hmid : (r.middle_names = none ∧ 7 + ln.length + fn.length ≤ 44) ∨
      (∃ ws, ws ≠ [] ∧ (∀ w ∈ ws, w ≠ [] ∧ w.all isUpperAlnum = true) ∧
        r.middle_names = some (joinSpace ws) ∧ fn ≠ [] ∧
        8 + ln.length + fn.length + (joinSpace ws).length ≤ 44)) :
    ∃ l1 l2 d, encode_mrz_strings r = some (l1, l2) ∧
      decode_mrz_strings l1 l2 = some d ∧
      d.document_type = dt ∧ d.country_code = cc ∧ d.last_name = ln ∧
      d.first_name = fn ∧ d.middle_names = r.middle_names ∧
      d.passport_number = pn ∧ d.country_code_2 = cc ∧ d.birth_date = bd ∧
      d.sex = sx ∧ d.expiration_date = ed ∧ d.personal_number = per := by
  obtain ⟨d0, rfl⟩ := List.length_eq_one.mp hdt1
  have hlnNoLt : '<' ∉ ln := alnum_no_lt hlnA
  have hlnNoSp : ' ' ∉ ln := alnum_no_space hlnA
  have hfnNoLt : '<' ∉ fn := alnum_no_lt hfnA
  have hfnNoSp : ' ' ∉ fn := alnum_no_space hfnA
  have hpn' : enc_passport r = pn ++ List.replicate (9 - pn.length) '<' := by
    unfold enc_passport
    rw [hpn, Option.getD_some, pyLjust_take_of_le '<' hpn9]
  have hccf : enc_country r = cc := by
    unfold enc_country
    rw [hcc, Option.getD_some, pyLjust_take_of_eq '<' hcc3]
  have hbdf : enc_birth r = bd := by
    unfold enc_birth
    rw [hbd, Option.getD_some, pyLjust_take_of_eq '<' hbd6]
  have hedf : enc_expiration r = ed := by
    unfold enc_expiration
    rw [hed, Option.getD_some, pyLjust_take_of_eq '<' hed6]
  have hper' : enc_personal r = per ++ List.replicate (14 - per.length) '<' := by
    unfold enc_personal
    rw [hper, Option.getD_some, pyLjust_take_of_le '<' hper14]
  have hsxt : sx.take 1 = sx := List.take_of_length_le (Nat.le_of_eq hsx1)
  have hplen9 : (pn ++ List.replicate (9 - pn.length) '<').length = 9 := by
    simp only [List.length_append, List.length_replicate]
    omega
  have hperlen : (per ++ List.replicate (14 - per.length) '<').length = 14 := by
    simp only [List.length_append, List.length_replicate]
    omega
  have hline2 : enc_line2 r sx =
      (pn ++ List.replicate (9 - pn.length) '<') ++
        (checkDigitChar (pn ++ List.replicate (9 - pn.length) '<') ::
          (cc ++ (bd ++ (checkDigitChar bd ::
            (sx ++ (ed ++ (checkDigitChar ed ::
              ((per ++ List.replicate (14 - per.length) '<') ++
                ('<' :: [checkDigitChar (per ++ List.replicate (14 - per.length) '<')]))))))))) := by
    simp only [enc_line2, hpn', hccf, hbdf, hedf, hper', hsxt, hplen9, hperlen, hcc3, hbd6,
      hsx1, hed6]
    norm_num
  have hdec2 : decode_mrz_line2 (enc_line2 r sx) = some {
      passport_number := pn
      passport_number_check_digit := checkDigitChar (pn ++ List.replicate (9 - pn.length) '<')
      country_code_2 := cc
      birth_date := bd
      birth_date_check_digit := checkDigitChar bd
      sex := sx
      expiration_date := ed
      expiration_date_check_digit := checkDigitChar ed
      personal_number := per
      personal_number_check_digit :=
        checkDigitChar (per ++ List.replicate (14 - per.length) '<') } := by
    rw [hline2,
      decode_mrz_line2_shape (pn ++ List.replicate (9 - pn.length) '<') cc bd sx ed
        (per ++ List.replicate (14 - per.length) '<')
        (checkDigitChar (pn ++ List.replicate (9 - pn.length) '<')) (checkDigitChar bd)
        (checkDigitChar ed) (checkDigitChar (per ++ List.replicate (14 - per.length) '<'))
        hplen9 hcc3 hbd6 hsx1 hed6 hperlen,
      strip_remove_padded pn _ hpnA, strip_remove_padded per _ hperA]
  rcases hmid with ⟨hmidn, hfit⟩ | ⟨ws, hws, hwprop, hmides, hfnne, hfit⟩
  · have hcore : enc_line1_core r = d0 :: ('<' :: (cc ++ (ln ++ ('<' :: ('<' :: fn))))) := by
      unfold enc_line1_core
      rw [hdt, hcc, hln, hfn, hmidn]
      simp only [Option.getD_some, Option.getD_none]
      rw [replaceChar_of_not_mem '<' hlnNoSp, replaceChar_of_not_mem '<' hfnNoSp]
      simp [List.append_assoc]
    have hclen : (enc_line1_core r).length = 7 + ln.length + fn.length := by
      rw [hcore]
      simp only [List.length_cons, List.length_append, hcc3]
      omega
    have hfit' : (enc_line1_core r).length ≤ 44 := by
      rw [hclen]
      omega
    have hline1 : enc_line1 r = d0 :: ('<' :: (cc ++ (ln ++ ('<' :: ('<' ::
        (fn ++ List.replicate (44 - (7 + ln.length + fn.length)) '<')))))) := by
      rw [enc_line1_eq_pad r hfit', hclen, hcore]
      simp [List.append_assoc]
    have hsplitrep : pySplit '<' (List.replicate (44 - (7 + ln.length + fn.length)) '<') =
        [] :: List.replicate (44 - (7 + ln.length + fn.length)) ([] : List Char) := by
      rw [pySplit_replicate, List.replicate_succ]
    have hps : pySplit '<' (fn ++ List.replicate (44 - (7 + ln.length + fn.length)) '<') =
        (fn ++ []) :: List.replicate (44 - (7 + ln.length + fn.length)) ([] : List Char) :=
      pySplit_append_of_no_sep '<' _ hfnNoLt _ _ hsplitrep
    have hgw : given_words (fn ++ List.replicate (44 - (7 + ln.length + fn.length)) '<') =
        if fn = [] then [] else [fn] := by
      unfold given_words
      rw [hps, List.append_nil, List.filter_cons]
      by_cases hfe : fn = []
      · simp [hfe, List.filter_replicate]
      · simp [hfe, List.filter_replicate]
    have hdec1 : decode_mrz_line1 (enc_line1 r) =
        some { document_type := [d0], country_code := cc, last_name := ln,
               first_name := fn, middle_names := none } := by
      rw [hline1, decode_mrz_line1_shape d0 cc ln _ hcc3 hlnNoLt,
        replaceChar_of_not_mem ' ' hlnNoLt, pyStrip_of_alnum hlnA, hgw]
      by_cases hfe : fn = []
      · simp [hfe]
      · simp [hfe, pyStrip_of_alnum hfnA]
    refine ⟨enc_line1 r, enc_line2 r sx,
      { document_type := [d0], country_code := cc, last_name := ln, first_name := fn,
        middle_names := none, passport_number := pn,
        passport_number_check_digit := checkDigitChar (pn ++ List.replicate (9 - pn.length) '<'),
        country_code_2 := cc, birth_date := bd, birth_date_check_digit := checkDigitChar bd,
        sex := sx, expiration_date := ed, expiration_date_check_digit := checkDigitChar ed,
        personal_number := per,
        personal_number_check_digit :=
          checkDigitChar (per ++ List.replicate (14 - per.length) '<') },
      encode_some hsx, ?_, rfl, rfl, rfl, rfl, hmidn.symm, rfl, rfl, rfl, rfl, rfl, rfl⟩
    unfold decode_mrz_strings
    rw [hdec1, hdec2]
  · cases ws with
    | nil => exact absurd rfl hws
    | cons w0 ws' =>
      have hwNoSp : ∀ w ∈ w0 :: ws', ' ' ∉ w := fun w hw => alnum_no_space (hwprop w hw).2
      have hwNoLt : ∀ w ∈ w0 :: ws', '<' ∉ w := fun w hw => alnum_no_lt (hwprop w hw).2
      have hmb : replaceChar ' ' '<' (joinSpace (w0 :: ws')) = joinWith ['<'] (w0 :: ws') :=
        replace_space_joinSpace hwNoSp
      have hjne : ¬(joinSpace (w0 :: ws') = []) :=
        joinSpace_cons_ne_nil ws' (hwprop w0 (List.mem_cons_self w0 ws')).1
      have hcore : enc_line1_core r = d0 :: ('<' :: (cc ++ (ln ++ ('<' :: ('<' ::
          (fn ++ ('<' :: joinWith ['<'] (w0 :: ws')))))))) := by
        unfold enc_line1_core
        rw [hdt, hcc, hln, hfn, hmides]
        simp only [Option.getD_some]
        rw [replaceChar_of_not_mem '<' hlnNoSp, replaceChar_of_not_mem '<' hfnNoSp,
          if_neg hjne, hmb]
        simp [List.append_assoc]
      have hjlen : (joinWith ['<'] (w0 :: ws')).length = (joinSpace (w0 :: ws')).length := by
        rw [← hmb, replaceChar_length]
      have hclen : (enc_line1_core r).length =
          8 + ln.length + fn.length + (joinSpace (w0 :: ws')).length := by
        rw [hcore]
        simp only [List.length_cons, List.length_append, hcc3, hjlen]
        omega
      have hfit' : (enc_line1_core r).length ≤ 44 := by
        rw [hclen]
        omega
      have hline1 : enc_line1 r = d0 :: ('<' :: (cc ++ (ln ++ ('<' :: ('<' ::
          (fn ++ ('<' :: (joinWith ['<'] (w0 :: ws') ++
            List.replicate (44 - (8 + ln.length + fn.length + (joinSpace (w0 :: ws')).length))
              '<')))))))) := by
        rw [enc_line1_eq_pad r hfit', hclen, hcore]
        simp [List.append_assoc]
      have hXsplit : pySplit '<' ('<' :: (joinWith ['<'] (w0 :: ws') ++
          List.replicate (44 - (8 + ln.length + fn.length + (joinSpace (w0 :: ws')).length))
            '<')) =
          [] :: ((w0 :: ws') ++
            List.replicate (44 - (8 + ln.length + fn.length + (joinSpace (w0 :: ws')).length))
              ([] : List Char)) := by
        have hj := pySplit_join_words (show w0 :: ws' ≠ [] by simp) hwNoLt
          (44 - (8 + ln.length + fn.length + (joinSpace (w0 :: ws')).length))
        unfold pySplit
        rw [List.cons_append] at hj
        rw [hj]
        simp [List.cons_append]
      have hps : pySplit '<' (fn ++ ('<' :: (joinWith ['<'] (w0 :: ws') ++
          List.replicate (44 - (8 + ln.length + fn.length + (joinSpace (w0 :: ws')).length))
            '<'))) =
          (fn ++ []) :: ((w0 :: ws') ++
            List.replicate (44 - (8 + ln.length + fn.length + (joinSpace (w0 :: ws')).length))
              ([] : List Char)) :=
        pySplit_append_of_no_sep '<' _ hfnNoLt _ _ hXsplit
      have hgw : given_words (fn ++ ('<' :: (joinWith ['<'] (w0 :: ws') ++
          List.replicate (44 - (8 + ln.length + fn.length + (joinSpace (w0 :: ws')).length))
            '<'))) = fn :: w0 :: ws' := by
        unfold given_words
        rw [hps, List.append_nil, List.filter_cons,
          if_pos (show decide (fn ≠ []) = true by simp [hfnne]), List.filter_append,
          List.filter_replicate,
          List.filter_eq_self.mpr (fun w hw => by simp [(hwprop w hw).1])]
        simp
      have hstripws : List.map pyStrip (w0 :: ws') = w0 :: ws' := by
        have hid : ∀ w ∈ w0 :: ws', pyStrip w = id w :=
          fun w hw => pyStrip_of_alnum (hwprop w hw).2
        rw [List.map_congr_left hid, List.map_id]
      have hdec1 : decode_mrz_line1 (enc_line1 r) =
          some { document_type := [d0], country_code := cc, last_name := ln,
                 first_name := fn, middle_names := some (joinSpace (w0 :: ws')) } := by
        rw [hline1, decode_mrz_line1_shape d0 cc ln _ hcc3 hlnNoLt,
          replaceChar_of_not_mem ' ' hlnNoLt, pyStrip_of_alnum hlnA, hgw]
        have hlen2 : (fn :: w0 :: ws').length > 1 := by simp
        rw [if_pos hlen2]
        simp only [List.tail_cons, hstripws]
        rw [if_neg hjne]
        simp [pyStrip_of_alnum hfnA]
      refine ⟨enc_line1 r, enc_line2 r sx,
        { document_type := [d0], country_code := cc, last_name := ln, first_name := fn,
          middle_names := some (joinSpace (w0 :: ws')), passport_number := pn,
          passport_number_check_digit :=
            checkDigitChar (pn ++ List.replicate (9 - pn.length) '<'),
          country_code_2 := cc, birth_date := bd,
          birth_date_check_digit := checkDigitChar bd,
          sex := sx, expiration_date := ed, expiration_date_check_digit := checkDigitChar ed,
          personal_number := per,
          personal_number_check_digit :=
            checkDigitChar (per ++ List.replicate (14 - per.length) '<') },
        encode_some hsx, ?_, rfl, rfl, rfl, rfl, hmides.symm, rfl, rfl, rfl, rfl, rfl, rfl⟩
      unfold decode_mrz_strings
      rw [hdec1, hdec2]

/-- Witness for C2 at the ICAO specimen record. -/
theorem C2_roundtrip_witness :
    ∃ l1 l2 d, encode_mrz_strings erikssonRecord = some (l1, l2) ∧
      decode_mrz_strings l1 l2 = some d ∧
      d.document_type = "P".data ∧ d.country_code = "UTO".data ∧
      d.last_name = "ERIKSSON".data ∧ d.first_name = "ANNA".data ∧
      d.middle_names = erikssonRecord.middle_names ∧
      d.passport_number = "L898902C3".data ∧ d.country_code_2 = "UTO".data ∧
      d.birth_date = "740812".data ∧ d.sex = "F".data ∧
      d.expiration_date = "120415".data ∧ d.personal_number = "ZE184226B".data :=
  C2_roundtrip_amended erikssonRecord "P".data "UTO".data "ERIKSSON".data "ANNA".data
    "L898902C3".data "740812".data "F".data "120415".data "ZE184226B".data
    rfl (by decide) rfl (by decide) rfl (by decide) rfl (by decide) rfl (by decide) (by decide)
    rfl (by decide) rfl (by decide) rfl (by decide) rfl (by decide) (by decide)
    (Or.inr ⟨["MARIA".data], by decide, by decide, rfl, by decide, by decide⟩)

end MRTD
